import Mathlib

/-!
Shallow embedding of the twofactorauth Express server (src/unnamed/part_000,
with src/server.js a variant of the same routes without the JWT cookie step).
Route handlers become pure Lean functions over an explicit store state
(a list of user documents); the external collaborators (bcrypt compare,
speakeasy TOTP verification, secret generation, QR rendering) are passed in
as function parameters, matching the spec's boundary contracts.
-/

/-- One MongoDB user document of the User model. The `password` field holds
the stored bcrypt hash (hashing happens in the model layer); `twoFactorSecret`
is absent (`none`) until `/setup` binds one. -/
structure User where
  email : String
  password : String
  twoFactorSecret : Option String
deriving DecidableEq, Repr

/-- Embeds `User.findOne ⟨email⟩`: first document whose email field equals the
query email. -/
def findOne (st : List User) (email : String) : Option User :=
  st.find? (fun u => u.email == email)

/-- Embeds mongoose `user.save()` after mutating the document returned by
`findOne`: the first document with the given email is replaced. -/
def replaceFirst (st : List User) (email : String) (u' : User) : List User :=
  match st with
  | [] => []
  | u :: rest => if u.email == email then u' :: rest else u :: replaceFirst rest email u'

/-- Session token as built by `jwt.sign` in the source. Modelled from the
jsonwebtoken contract, an external collaborator per the spec: the RSA key
pair is abstracted to a shared numeric identifier (`key` records which pair
signed the token, standing for the signature), `alg` records the signing
algorithm, `exp` the expiry timestamp in seconds. -/
structure Token where
  alg : String
  email : String
  iat : Nat
  exp : Nat
  key : Nat
deriving DecidableEq, Repr

/-- Embeds `jwt.sign({ email }, privateKey, { algorithm: RS256, expiresIn: 1h })`
at lines 132 and 260 of part_000: one hour is 3600 seconds. -/
def jwtSign (priv : Nat) (email : String) (now : Nat) : Token :=
  { alg := "RS256", email := email, iat := now, exp := now + 3600, key := priv }

/-- Embeds `jwt.verify(token, publicKey, { algorithms: [RS256] })` per the
jsonwebtoken contract: succeeds exactly when the signature verifies against
the public key of the same pair, the algorithm is the pinned RS256, and the
current time is before the exp claim (jsonwebtoken rejects when
clockTimestamp is at or past exp). -/
def jwtVerify (pub : Nat) (t : Token) (now : Nat) : Option String :=
  if t.key == pub && t.alg == "RS256" && decide (now < t.exp) then some t.email else none

/-- Outcome of the authenticateToken middleware (part_000 lines 53-75). -/
inductive AuthResult where
  | tokenMissing
  | tokenInvalid
  | ok (email : String)
deriving DecidableEq, Repr

/-- Embeds authenticateToken: 403 when the cookie carries no token, 401 when
`jwt.verify` errors, otherwise the verified payload's email becomes req.user. -/
def authenticateToken (pub : Nat) (tok : Option Token) (now : Nat) : AuthResult :=
  match tok with
  | none => .tokenMissing
  | some t =>
    match jwtVerify pub t now with
    | none => .tokenInvalid
    | some email => .ok email

/-- Outcome of POST /login (part_000 lines 103-141). `invalidSecondFactor`
records the `twoFactorRequired` flag sent in the 401 JSON body;
`internalError` is the catch-all 500 branch, reached when
`speakeasy.totp.verify` throws (its verifyDelta throws Missing token when
the token option is null or undefined). -/
inductive LoginResult where
  | unknownAccount
  | invalidCredentials
  | invalidSecondFactor (twoFactorRequired : Bool)
  | internalError
  | success (token : Token)
deriving DecidableEq, Repr

/-- Embeds POST /login. `compare` is `bcrypt.compare`, `totp` is
`speakeasy.totp.verify` on a present secret and token at the current time.
JavaScript truthiness of `if (user.twoFactorSecret)` makes an empty-string
secret skip the second-factor block; a missing `twoFactorToken` makes
speakeasy throw, landing in the catch branch (500). -/
def login (compare : String → String → Bool) (totp : String → String → Nat → Bool)
    (priv now : Nat) (st : List User) (email password : String)
    (twoFactorToken : Option String) : LoginResult :=
  match findOne st email with
  | none => .unknownAccount
  | some user =>
    if compare password user.password then
      match user.twoFactorSecret with
      | none => .success (jwtSign priv user.email now)
      | some secret =>
        if secret == "" then .success (jwtSign priv user.email now)
        else
          match twoFactorToken with
          | none => .internalError
          | some tok =>
            if totp secret tok now then .success (jwtSign priv user.email now)
            else .invalidSecondFactor true
    else .invalidCredentials

/-- Outcome of POST /register (part_000 lines 78-100). -/
inductive RegisterResult where
  | validationError
  | duplicateAccount
  | created
deriving DecidableEq, Repr

/-- Embeds POST /register. The `models/User` file is not under src;
modelled from the spec: the model persists `passwordHash = Hash(password)`,
abstracted as the `hashp` parameter. JavaScript falsiness of `!email`
and `!password` is the empty-string test. A fresh document has no
`twoFactorSecret`. -/
def register (hashp : String → String) (st : List User) (email password : String) :
    RegisterResult × List User :=
  if email == "" || password == "" then (.validationError, st)
  else
    match findOne st email with
    | some _ => (.duplicateAccount, st)
    | none => (.created, st ++ [{ email := email, password := hashp password, twoFactorSecret := none }])

/-- TOTP secret material as returned by `speakeasy.generateSecret`: the same
secret in its ascii and base32 encodings. -/
structure Secret where
  ascii : String
  base32 : String
deriving DecidableEq, Repr

/-- Embeds `speakeasy.otpauthURL({ secret, label, issuer })` per the
documented otpauth URI format: a pure function binding the three inputs. -/
def otpauthURL (secret label issuer : String) : String :=
  "otpauth://totp/" ++ label ++ "?secret=" ++ secret ++ "&issuer=" ++ issuer

/-- Outcome of POST /setup (part_000 lines 169-199). -/
inductive SetupResult where
  | validationError
  | unknownAccount
  | invalidCredentials
  | ok (qrCodeImageUrl : String)
deriving DecidableEq, Repr

/-- Embeds POST /setup. `gen` is `speakeasy.generateSecret` applied to the
requested length (the source fixes it at 20); `render` is `qrcode.toDataURL`,
a pure function of the URI. On success the document's `twoFactorSecret` is
overwritten with the base32 secret and saved; the URI uses the ascii secret
with the constant label Bonnier and issuer Exjobb. -/
def setup (compare : String → String → Bool) (gen : Nat → Secret)
    (render : String → String) (st : List User) (email password : String) :
    SetupResult × List User :=
  if email == "" || password == "" then (.validationError, st)
  else
    match findOne st email with
    | none => (.unknownAccount, st)
    | some user =>
      if compare password user.password then
        let secret := gen 20
        let st' := replaceFirst st email { user with twoFactorSecret := some secret.base32 }
        (.ok (render (otpauthURL secret.ascii "Bonnier" "Exjobb")), st')
      else (.invalidCredentials, st)

/-- Outcome of POST /verify (part_000 lines 203-228). `internalError` is the
catch branch (500), reached when `speakeasy.totp.verify` throws Missing
secret because the destructured `twoFactorSecret` is undefined. -/
inductive VerifyResult where
  | validationError
  | unknownAccount
  | invalidSecondFactor
  | internalError
  | success
deriving DecidableEq, Repr

/-- Embeds POST /verify: input validation, user lookup, then
`speakeasy.totp.verify` directly on the document's `twoFactorSecret`
(no truthiness guard here, unlike /login): an absent secret makes
speakeasy throw, caught as a 500. -/
def verifyEndpoint (totp : String → String → Nat → Bool) (now : Nat)
    (st : List User) (email token : String) : VerifyResult :=
  if email == "" || token == "" then .validationError
  else
    match findOne st email with
    | none => .unknownAccount
    | some user =>
      match user.twoFactorSecret with
      | none => .internalError
      | some secret => if totp secret token now then .success else .invalidSecondFactor

/-- Result returned by the Freja eID provider's authRequest, as consumed at
part_000 lines 256-267: a status string and the claimed primary email found
under result.extra. -/
structure ProviderResult where
  status : String
  primaryEmail : String
deriving DecidableEq, Repr

/-- Outcome of POST /freja once the provider result arrives. On success the
handler also echoes the whole provider result to the client. -/
inductive FrejaResult where
  | success (token : Token) (user : ProviderResult)
  | providerRejected (payload : ProviderResult)
deriving DecidableEq, Repr

/-- Embeds the POST /freja result callback. The handler has the credential
store in scope (the `st` parameter) but never consults it: the branch on
`result.status === "completed"` either signs a token for the provider's
claimed email or returns a 401 carrying the provider's own result object. -/
def freja (priv now : Nat) (st : List User) (result : ProviderResult) : FrejaResult :=
  if result.status == "completed" then
    .success (jwtSign priv result.primaryEmail now) result
  else .providerRejected result

/-- C1: the /login failure checks happen in this order: unknown email first,
then password verification (whose failure result is the constant
invalidCredentials, independent of the account's second-factor enrollment,
so a wrong-password caller learns nothing about enrollment), and only after
the password verifies and a non-empty secret is bound is the TOTP code
evaluated. -/
theorem login_check_order
    (compare : String → String → Bool) (totp : String → String → Nat → Bool)
    (priv now : Nat) (st : List User) (email password : String) (tok : Option String) :
    (findOne st email = none →
      login compare totp priv now st email password tok = .unknownAccount) ∧
    (∀ user, findOne st email = some user → compare password user.password = false →
      login compare totp priv now st email password tok = .invalidCredentials) ∧
    (∀ user secret t, findOne st email = some user →
      compare password user.password = true →
      user.twoFactorSecret = some secret → secret ≠ "" → tok = some t →
      login compare totp priv now st email password tok =
        (if totp secret t now then .success (jwtSign priv user.email now)
         else .invalidSecondFactor true)) := by
  refine ⟨?_, ?_, ?_⟩
  · intro h
    simp [login, h]
  · intro user hf hpw
    simp [login, hf, hpw]
  · intro user secret t hf hpw hsec hne htok
    simp [login, hf, hpw, hsec, htok, hne]

/-- Witness for login_check_order at a concrete store and inputs. -/
theorem login_check_order_witness :
    login (fun p h => p == h) (fun _ _ _ => true) 0 7
        [{ email := "a@x.com", password := "p1", twoFactorSecret := some "S" }]
        "a@x.com" "p1" (some "123456") = .success (jwtSign 0 "a@x.com" 7) := by
  have h := (login_check_order (fun p h => p == h) (fun _ _ _ => true) 0 7
      [{ email := "a@x.com", password := "p1", twoFactorSecret := some "S" }]
      "a@x.com" "p1" (some "123456")).2.2
      { email := "a@x.com", password := "p1", twoFactorSecret := some "S" }
      "S" "123456" (by decide) (by decide) rfl (by decide) rfl
  simpa using h

/-- C2 counterexample: with a bound secret and a correct password, the 401
response for an empty submitted code and the one for a wrong non-empty code
are the same value, namely invalidSecondFactor with the single constant flag
true; nothing in the result distinguishes the absent-code case from the
wrong-code case. -/
theorem login_flag_no_distinction :
    login (fun p h => p == h) (fun _ _ _ => false) 0 0
        [{ email := "a@x.com", password := "p1", twoFactorSecret := some "SECRET" }]
        "a@x.com" "p1" (some "") =
      login (fun p h => p == h) (fun _ _ _ => false) 0 0
        [{ email := "a@x.com", password := "p1", twoFactorSecret := some "SECRET" }]
        "a@x.com" "p1" (some "999999") ∧
    login (fun p h => p == h) (fun _ _ _ => false) 0 0
        [{ email := "a@x.com", password := "p1", twoFactorSecret := some "SECRET" }]
        "a@x.com" "p1" (some "") = .invalidSecondFactor true := by
  exact ⟨by decide, by decide⟩

/-- C2 amended: when a login by an account with a bound non-empty secret and
a correct password submits a TOTP code that does not verify at the current
time, the result is invalidSecondFactor carrying the constant flag true,
the same response whether the code was empty or wrong; a request with no
token field at all instead hits the 500 branch because speakeasy throws on
a missing token. -/
theorem login_secondFactor_failure
    (compare : String → String → Bool) (totp : String → String → Nat → Bool)
    (priv now : Nat) (st : List User) (email password : String)
    (user : User) (secret t : String)
    (hf : findOne st email = some user)
    (hpw : compare password user.password = true)
    (hsec : user.twoFactorSecret = some secret) (hne : secret ≠ "")
    (htotp : totp secret t now = false) :
    login compare totp priv now st email password (some t) = .invalidSecondFactor true ∧
    login compare totp priv now st email password none = .internalError := by
  constructor
  · simp [login, hf, hpw, hsec, hne, htotp]
  · simp [login, hf, hpw, hsec, hne]

/-- Witness for login_secondFactor_failure at a concrete store and inputs. -/
theorem login_secondFactor_failure_witness :
    login (fun p h => p == h) (fun _ _ _ => false) 0 0
        [{ email := "a@x.com", password := "p1", twoFactorSecret := some "SECRET" }]
        "a@x.com" "p1" (some "000000") = .invalidSecondFactor true ∧
    login (fun p h => p == h) (fun _ _ _ => false) 0 0
        [{ email := "a@x.com", password := "p1", twoFactorSecret := some "SECRET" }]
        "a@x.com" "p1" none = .internalError := by
  exact login_secondFactor_failure (fun p h => p == h) (fun _ _ _ => false) 0 0
    [{ email := "a@x.com", password := "p1", twoFactorSecret := some "SECRET" }]
    "a@x.com" "p1"
    { email := "a@x.com", password := "p1", twoFactorSecret := some "SECRET" }
    "SECRET" "000000" (by decide) (by decide) rfl (by decide) rfl

/-- C3: for an account with no twoFactorSecret bound, login succeeds exactly
when the password verifies, and the outcome is independent of both the
supplied token value (empty, missing, or anything else) and the TOTP
verification function: no second-factor check occurs. -/
theorem login_no_secret
    (compare : String → String → Bool) (totp : String → String → Nat → Bool)
    (priv now : Nat) (st : List User) (email password : String)
    (tok : Option String) (user : User)
    (hf : findOne st email = some user)
    (hsec : user.twoFactorSecret = none) :
    (login compare totp priv now st email password tok =
        .success (jwtSign priv user.email now) ↔
      compare password user.password = true) ∧
    (∀ (totp2 : String → String → Nat → Bool) (tok2 : Option String),
      login compare totp priv now st email password tok =
        login compare totp2 priv now st email password tok2) := by
  constructor
  · constructor
    · intro h
      by_contra hpw
      rw [Bool.not_eq_true] at hpw
      simp [login, hf, hpw] at h
    · intro hpw
      simp [login, hf, hpw, hsec]
  · intro totp2 tok2
    by_cases hpw : compare password user.password
    · simp [login, hf, hpw, hsec]
    · rw [Bool.not_eq_true] at hpw
      simp [login, hf, hpw]

/-- Witness for login_no_secret at a concrete store and inputs. -/
theorem login_no_secret_witness :
    (login (fun p h => p == h) (fun _ _ _ => false) 0 0
        [{ email := "a@x.com", password := "p1", twoFactorSecret := none }]
        "a@x.com" "p1" none =
      .success (jwtSign 0 "a@x.com" 0) ↔ (("p1" == "p1") = true)) ∧
    login (fun p h => p == h) (fun _ _ _ => false) 0 0
        [{ email := "a@x.com", password := "p1", twoFactorSecret := none }]
        "a@x.com" "p1" none =
      login (fun p h => p == h) (fun _ _ _ => true) 0 0
        [{ email := "a@x.com", password := "p1", twoFactorSecret := none }]
        "a@x.com" "p1" (some "123456") := by
  have h := login_no_secret (fun p h => p == h) (fun _ _ _ => false) 0 0
    [{ email := "a@x.com", password := "p1", twoFactorSecret := none }]
    "a@x.com" "p1" none
    { email := "a@x.com", password := "p1", twoFactorSecret := none }
    (by decide) rfl
  exact ⟨h.1, h.2 (fun _ _ _ => true) (some "123456")⟩

/-- C4: setup called on an existing account with a password that does not
verify leaves the store untouched, and (when both inputs are non-empty, so
the request passes input validation) fails with invalidCredentials. -/
theorem setup_wrong_password
    (compare : String → String → Bool) (gen : Nat → Secret)
    (render : String → String) (st : List User) (email password : String)
    (user : User)
    (hf : findOne st email = some user)
    (hpw : compare password user.password = false) :
    (setup compare gen render st email password).2 = st ∧
    (email ≠ "" → password ≠ "" →
      (setup compare gen render st email password).1 = .invalidCredentials) := by
  constructor
  · by_cases hv : (email == "" || password == "") = true
    · simp [setup, hv]
    · simp only [setup, hv]
      simp [hf, hpw]
  · intro he hp
    have hv : (email == "" || password == "") = false := by
      simp [he, hp]
    simp only [setup, hv]
    simp [hf, hpw]

/-- Witness for setup_wrong_password at a concrete store and inputs. -/
theorem setup_wrong_password_witness :
    (setup (fun p h => p == h) (fun _ => { ascii := "A", base32 := "B" }) id
        [{ email := "a@x.com", password := "p1", twoFactorSecret := some "OLD" }]
        "a@x.com" "wrong").2 =
      [{ email := "a@x.com", password := "p1", twoFactorSecret := some "OLD" }] ∧
    (setup (fun p h => p == h) (fun _ => { ascii := "A", base32 := "B" }) id
        [{ email := "a@x.com", password := "p1", twoFactorSecret := some "OLD" }]
        "a@x.com" "wrong").1 = .invalidCredentials := by
  have h := setup_wrong_password (fun p h => p == h)
    (fun _ => { ascii := "A", base32 := "B" }) id
    [{ email := "a@x.com", password := "p1", twoFactorSecret := some "OLD" }]
    "a@x.com" "wrong"
    { email := "a@x.com", password := "p1", twoFactorSecret := some "OLD" }
    (by decide) (by decide)
  exact ⟨h.1, h.2 (by decide) (by decide)⟩

/-- C5: the token middleware fails with tokenMissing when no token is
presented; a presented token is accepted, yielding its subject email,
exactly when its signature verifies against the service's public key, its
algorithm is the pinned RS256, and the current time is before its expiry;
under any other condition it fails with tokenInvalid. -/
theorem authenticateToken_spec (pub now : Nat) :
    authenticateToken pub none now = .tokenMissing ∧
    (∀ t : Token, t.key = pub → t.alg = "RS256" → now < t.exp →
      authenticateToken pub (some t) now = .ok t.email) ∧
    (∀ t : Token, ¬(t.key = pub ∧ t.alg = "RS256" ∧ now < t.exp) →
      authenticateToken pub (some t) now = .tokenInvalid) := by
  refine ⟨rfl, ?_, ?_⟩
  · intro t hk ha he
    simp [authenticateToken, jwtVerify, hk, ha, he]
  · intro t hbad
    have : (t.key == pub && t.alg == "RS256" && decide (now < t.exp)) = false := by
      by_contra hcon
      rw [Bool.not_eq_false] at hcon
      simp only [Bool.and_eq_true, beq_iff_eq, decide_eq_true_eq] at hcon
      exact hbad ⟨hcon.1.1, hcon.1.2, hcon.2⟩
    simp [authenticateToken, jwtVerify, this]

/-- Witness for authenticateToken_spec at a concrete key, token and time. -/
theorem authenticateToken_spec_witness :
    authenticateToken 5 none 10 = .tokenMissing ∧
    authenticateToken 5 (some (jwtSign 5 "a@x.com" 10)) 10 = .ok "a@x.com" ∧
    authenticateToken 5 (some (jwtSign 6 "a@x.com" 10)) 10 = .tokenInvalid := by
  have h := authenticateToken_spec 5 10
  exact ⟨h.1,
    h.2.1 (jwtSign 5 "a@x.com" 10) rfl rfl (by simp [jwtSign]),
    h.2.2 (jwtSign 6 "a@x.com" 10) (by simp [jwtSign])⟩

/-- C6: the freja handler with a completed provider result signs a session
token whose subject is the provider's claimed email; any other status is
rejected with the provider's own payload and no token; and the outcome is
independent of the credential store, which the handler never consults. -/
theorem freja_spec (priv now : Nat) (st : List User) (r : ProviderResult) :
    (r.status = "completed" →
      freja priv now st r = .success (jwtSign priv r.primaryEmail now) r ∧
      (jwtSign priv r.primaryEmail now).email = r.primaryEmail) ∧
    (r.status ≠ "completed" → freja priv now st r = .providerRejected r) ∧
    (∀ st' : List User, freja priv now st r = freja priv now st' r) := by
  refine ⟨?_, ?_, fun _ => rfl⟩
  · intro hc
    exact ⟨by simp [freja, hc], rfl⟩
  · intro hc
    simp [freja, hc]

/-- Witness for freja_spec at concrete provider results. -/
theorem freja_spec_witness :
    freja 0 3 [] { status := "completed", primaryEmail := "a@x.com" } =
      .success (jwtSign 0 "a@x.com" 3) { status := "completed", primaryEmail := "a@x.com" } ∧
    freja 0 3 [] { status := "failed", primaryEmail := "a@x.com" } =
      .providerRejected { status := "failed", primaryEmail := "a@x.com" } := by
  exact ⟨((freja_spec 0 3 [] { status := "completed", primaryEmail := "a@x.com" }).1 rfl).1,
    (freja_spec 0 3 [] { status := "failed", primaryEmail := "a@x.com" }).2.1 (by decide)⟩

/-- C7 counterexample: two different accounts enrolling with the same
generated secret receive the same response payload, and the enrollment URI
uses the constant label Bonnier: the URI binds no label identifying the
enrolling account. -/
theorem setup_label_not_account_specific :
    ("a@x.com" : String) ≠ "b@y.com" ∧
    (setup (fun p h => p == h) (fun _ => { ascii := "AS", base32 := "B32" }) id
        [{ email := "a@x.com", password := "p", twoFactorSecret := none },
         { email := "b@y.com", password := "p", twoFactorSecret := none }]
        "a@x.com" "p").1 =
      (setup (fun p h => p == h) (fun _ => { ascii := "AS", base32 := "B32" }) id
        [{ email := "a@x.com", password := "p", twoFactorSecret := none },
         { email := "b@y.com", password := "p", twoFactorSecret := none }]
        "b@y.com" "p").1 ∧
    (setup (fun p h => p == h) (fun _ => { ascii := "AS", base32 := "B32" }) id
        [{ email := "a@x.com", password := "p", twoFactorSecret := none },
         { email := "b@y.com", password := "p", twoFactorSecret := none }]
        "a@x.com" "p").1 =
      .ok "otpauth://totp/Bonnier?secret=AS&issuer=Exjobb" := by
  exact ⟨by decide, by decide, by decide⟩

/-- C7 amended: setup with a correct password on an existing account
generates a fresh secret with the requested fixed length 20, persists its
base32 form on the account overwriting any prior secret, derives an
enrollment URI binding the ascii secret, the fixed issuer label Exjobb and
the fixed account-independent label Bonnier, and returns the rendered image
of that URI; nothing but the raw secret is added to the stored state. -/
theorem setup_correct_password
    (compare : String → String → Bool) (gen : Nat → Secret)
    (render : String → String) (st : List User) (email password : String)
    (user : User)
    (he : email ≠ "") (hp : password ≠ "")
    (hf : findOne st email = some user)
    (hpw : compare password user.password = true) :
    setup compare gen render st email password =
      (.ok (render (otpauthURL (gen 20).ascii "Bonnier" "Exjobb")),
       replaceFirst st email { user with twoFactorSecret := some (gen 20).base32 }) := by
  have hv : (email == "" || password == "") = false := by
    simp [he, hp]
  simp only [setup, hv]
  simp [hf, hpw]

/-- Witness for setup_correct_password at a concrete store and inputs. -/
theorem setup_correct_password_witness :
    setup (fun p h => p == h) (fun _ => { ascii := "AS", base32 := "B32" }) id
        [{ email := "a@x.com", password := "p1", twoFactorSecret := some "OLD" }]
        "a@x.com" "p1" =
      (.ok "otpauth://totp/Bonnier?secret=AS&issuer=Exjobb",
       [{ email := "a@x.com", password := "p1", twoFactorSecret := some "B32" }]) := by
  have h := setup_correct_password (fun p h => p == h)
    (fun _ => { ascii := "AS", base32 := "B32" }) id
    [{ email := "a@x.com", password := "p1", twoFactorSecret := some "OLD" }]
    "a@x.com" "p1"
    { email := "a@x.com", password := "p1", twoFactorSecret := some "OLD" }
    (by decide) (by decide) (by decide) (by decide)
  simpa [replaceFirst, otpauthURL] using h

/-- Auxiliary: appending one document to a store where lookup failed makes
lookup find exactly that document when its email matches. -/
theorem findOne_append_singleton (st : List User) (email : String) (u : User)
    (h : findOne st email = none) :
    findOne (st ++ [u]) email = if u.email == email then some u else none := by
  induction st with
  | nil =>
    simp only [List.nil_append, findOne, List.find?]
    cases hu : u.email == email <;> simp [hu]
  | cons v rest ih =>
    simp only [findOne, List.find?] at h ⊢
    cases hv : v.email == email with
    | true => simp [hv] at h
    | false =>
      simp only [hv] at h ⊢
      exact ih h

/-- C8 counterexample: after a successful registration, a second
registration of the same email with an empty password fails input
validation, not the duplicate check: the claim's phrase regardless of the
password supplied on the second call is false at the empty password. -/
theorem register_second_empty_password :
    (register id ((register id [] "a@x.com" "p1").2) "a@x.com" "").1 =
      .validationError ∧
    (RegisterResult.validationError ≠ RegisterResult.duplicateAccount) ∧
    (register id [] "a@x.com" "p1").1 = .created := by
  exact ⟨by decide, by decide, by decide⟩

/-- C8 amended: for every email and pair of non-empty passwords, after a
first registration of a fresh email succeeds, a second registration of the
same email fails with duplicateAccount regardless of which non-empty
password is supplied, and the store is left unchanged; a second call with
an empty password instead fails input validation. -/
theorem register_duplicate
    (hashp : String → String) (st : List User) (email p1 p2 : String)
    (he : email ≠ "") (h1 : p1 ≠ "") (h2 : p2 ≠ "")
    (hnew : findOne st email = none) :
    (register hashp st email p1).1 = .created ∧
    register hashp (register hashp st email p1).2 email p2 =
      (.duplicateAccount, (register hashp st email p1).2) := by
  have hv1 : (email == "" || p1 == "") = false := by simp [he, h1]
  have hv2 : (email == "" || p2 == "") = false := by simp [he, h2]
  have hreg : register hashp st email p1 =
      (.created, st ++ [{ email := email, password := hashp p1, twoFactorSecret := none }]) := by
    simp only [register, hv1]
    simp [hnew]
  have hfind : findOne (st ++ [{ email := email, password := hashp p1, twoFactorSecret := none }])
      email = some { email := email, password := hashp p1, twoFactorSecret := none } := by
    rw [findOne_append_singleton st email _ hnew]
    simp
  constructor
  · rw [hreg]
  · rw [hreg]
    simp only [register, hv2]
    simp [hfind]

/-- Witness for register_duplicate at a concrete email and passwords. -/
theorem register_duplicate_witness :
    (register id [] "a@x.com" "p1").1 = .created ∧
    register id (register id [] "a@x.com" "p1").2 "a@x.com" "p2" =
      (.duplicateAccount, (register id [] "a@x.com" "p1").2) := by
  exact register_duplicate id [] "a@x.com" "p1" "p2"
    (by decide) (by decide) (by decide) rfl

/-- C9: a token minted on login-style issuance verifies immediately through
the middleware, yielding the same subject email; its expiry is the issuance
time plus the fixed one-hour lifetime of 3600 seconds; and once the clock
passes that expiry the same token is rejected as invalid. -/
theorem token_roundtrip (k now later : Nat) (email : String)
    (hlate : now + 3600 < later) :
    authenticateToken k (some (jwtSign k email now)) now = .ok email ∧
    (jwtSign k email now).exp = now + 3600 ∧
    authenticateToken k (some (jwtSign k email now)) later = .tokenInvalid := by
  refine ⟨?_, rfl, ?_⟩
  · simp [authenticateToken, jwtVerify, jwtSign]
  · have hexp : ¬ later < now + 3600 := by omega
    simp [authenticateToken, jwtVerify, jwtSign, hexp]

/-- Witness for token_roundtrip at a concrete key, subject and times. -/
theorem token_roundtrip_witness :
    authenticateToken 1 (some (jwtSign 1 "a@x.com" 100)) 100 = .ok "a@x.com" ∧
    (jwtSign 1 "a@x.com" 100).exp = 100 + 3600 ∧
    authenticateToken 1 (some (jwtSign 1 "a@x.com" 100)) 3701 = .tokenInvalid := by
  exact token_roundtrip 1 100 3701 "a@x.com" (by decide)

/-- C10: the /verify operation on an existing account with no bound
twoFactorSecret never returns success for any submitted code: either input
validation fails, or the TOTP engine throws on the absent secret and the
request ends in the 500 branch. -/
theorem verify_no_secret_never_success
    (totp : String → String → Nat → Bool) (now : Nat) (st : List User)
    (email token : String) (user : User)
    (hf : findOne st email = some user)
    (hsec : user.twoFactorSecret = none) :
    verifyEndpoint totp now st email token ≠ .success := by
  by_cases hv : (email == "" || token == "") = true
  · simp [verifyEndpoint, hv]
  · rw [Bool.not_eq_true] at hv
    simp [verifyEndpoint, hv, hf, hsec]

/-- Witness for verify_no_secret_never_success at a concrete store. -/
theorem verify_no_secret_never_success_witness :
    verifyEndpoint (fun _ _ _ => true) 0
        [{ email := "a@x.com", password := "p1", twoFactorSecret := none }]
        "a@x.com" "123456" ≠ .success := by
  exact verify_no_secret_never_success (fun _ _ _ => true) 0
    [{ email := "a@x.com", password := "p1", twoFactorSecret := none }]
    "a@x.com" "123456"
    { email := "a@x.com", password := "p1", twoFactorSecret := none }
    (by decide) rfl
